import Mathlib

/-!
Shallow embedding of the inventory-ledger and transaction core of the
`api_crud` repository (src/app/services/inventory_service.py,
src/app/services/transaction_service.py, src/app/repositories.py,
src/app/models/inventory.py, src/app/models/transaction.py,
src/app/core/exceptions.py).

Conventions of the embedding:
* UUIDs are modelled as `Nat` identifiers.
* Python `int` is `Int`; `Decimal` is `Rat` (exact fixed-scale decimals are
  a subset of the rationals; none of the verified claims depends on the
  28-digit context rounding of `decimal`).
* The SQLAlchemy session plus the `BaseRepository` layer is modelled by an
  explicit `DB` state.  `BaseRepository.create` and `BaseRepository.update`
  call `db.commit()` on every invocation (src/app/repositories.py:166 and
  :256), so every row write is immediately durable; a Python exception
  raised later in a service method does NOT undo earlier writes.  This is
  captured by the result type `Res`, which carries the committed `DB` state
  both on success and on error.
* Raising an exception class `E` is modelled as returning `Res.err e db`
  where `e` is the corresponding constructor of `Err`.  `Err.valueError`
  models Python's built-in `ValueError` (raised in
  `InventoryService.initialize_inventory`); every other constructor is one
  of the `AppException` subclasses of src/app/core/exceptions.py.
-/

namespace ApiCrud

/-- Row of the `store_inventories` table (src/app/models/inventory.py:61). -/
structure StoreInventory where
  store_id : Nat
  product_id : Nat
  quantity_balance : Int
  unit_cost : Rat
  total_cost : Rat
deriving DecidableEq, Repr

/-- Row of the `inventory_movements` table (src/app/models/inventory.py:11).
`movement_type` is the string stored in the column
(purchase / sale / adjustment / return / transfer). -/
structure Movement where
  store_id : Nat
  product_id : Nat
  quantity_change : Int
  unit_cost : Rat
  movement_type : String
  reference_id : Option Nat
  notes : Option String
deriving DecidableEq, Repr

/-- Row of the `transactions` table (src/app/models/transaction.py:12).
`status` is the string stored in the column. -/
structure TransactionRow where
  id : Nat
  customer_id : Option Nat
  store_id : Nat
  employee_id : Nat
  total_amount : Rat
  status : String
deriving DecidableEq, Repr

/-- Row of the `transaction_items` table (src/app/models/transaction.py:67). -/
structure TransactionItemRow where
  transaction_id : Nat
  product_id : Nat
  quantity : Int
  price : Rat
deriving DecidableEq, Repr

/-- The persistent state seen through the repository layer: the id sets of
the directory tables (stores, products, employees, customers), the
catalog's current-price list (`ProductPriceRepository.get_current_price`),
and the rows owned by the ledger and the transaction aggregate.
`next_id` models the fresh-UUID generator used for new transactions. -/
structure DB where
  stores : List Nat
  products : List Nat
  employees : List Nat
  customers : List Nat
  prices : List (Nat × Rat)
  balances : List StoreInventory
  movements : List Movement
  transactions : List TransactionRow
  transaction_items : List TransactionItemRow
  next_id : Nat
deriving DecidableEq, Repr

/-- The exception classes of src/app/core/exceptions.py that the embedded
services raise, plus `valueError` for Python's built-in `ValueError` and
`integrityError` for `sqlalchemy.exc.IntegrityError`, which `db.commit()`
raises when a row violates one of the CHECK constraints declared on the
tables (src/app/models/transaction.py); a row whose commit fails is not
persisted. -/
inductive Err where
  | storeNotFound
  | productNotFound
  | invalidQuantity
  | invalidPrice
  | inventoryNotFound
  | insufficientStock
  | valueError
  | integrityError
  | transactionNotFound
  | invalidTransaction
  | customerNotFound
  | employeeNotFound
deriving DecidableEq, Repr

/-- Outcome of a service call: either a returned value or a raised
exception, in both cases together with the committed database state
(each repository `create`/`update` commits immediately, so the state at
the moment an exception is raised is durable). -/
inductive Res (α : Type) where
  | ok : α → DB → Res α
  | err : Err → DB → Res α
deriving DecidableEq, Repr

/-- The committed database state of an outcome. -/
def Res.db : Res α → DB
  | .ok _ d => d
  | .err _ d => d

/-- Whether the call returned normally. -/
def Res.isOk : Res α → Bool
  | .ok _ _ => true
  | .err _ _ => false

/-- Replace the first element satisfying `p` by its image under `f`
(the ORM `update` mutates the single fetched row). -/
def updateFirst (p : α → Bool) (f : α → α) : List α → List α
  | [] => []
  | a :: as => if p a then f a :: as else a :: updateFirst p f as

/-- Key predicate of the `uq_store_product` unique key. -/
def bal_key (store_id product_id : Nat) (b : StoreInventory) : Bool :=
  b.store_id == store_id && b.product_id == product_id

/-- `StoreInventoryRepository.get_by_store_and_product`
(src/app/repositories/inventory_repository.py): first row matching the
(store, product) key. -/
def get_by_store_and_product (db : DB) (store_id product_id : Nat) :
    Option StoreInventory :=
  db.balances.find? (bal_key store_id product_id)

/-- `store_inventory.update`: overwrite the fetched (store, product) row. -/
def store_inventory_update (db : DB) (store_id product_id : Nat)
    (newRow : StoreInventory) : DB :=
  let newBalances := updateFirst (bal_key store_id product_id) (fun _ => newRow) db.balances
  { db with balances := newBalances }

/-- `inventory_movement.create`: append one row to the movement log. -/
def appendMovement (db : DB) (m : Movement) : DB :=
  { db with movements := db.movements ++ [m] }

/-- `InventoryService.initialize_inventory`
(src/app/services/inventory_service.py:23-90).  Validates store, product,
quantity and unit cost, raises `ValueError` if a balance already exists,
otherwise creates the balance row and, when `quantity > 0`, one `purchase`
movement noted "Initial inventory". -/
def initialize_inventory (db : DB) (store_id product_id : Nat)
    (quantity : Int) (unit_cost : Rat) : Res StoreInventory :=
  if db.stores.contains store_id = false then .err .storeNotFound db
  else if db.products.contains product_id = false then .err .productNotFound db
  else if quantity < 0 then .err .invalidQuantity db
  else if unit_cost ≤ 0 then .err .invalidQuantity db
  else match get_by_store_and_product db store_id product_id with
    | some _ => .err .valueError db
    | none =>
      let total_cost : Rat := (quantity : Rat) * unit_cost
      let inventory_record : StoreInventory :=
        ⟨store_id, product_id, quantity, unit_cost, total_cost⟩
      let db1 : DB := { db with balances := db.balances ++ [inventory_record] }
      let db2 : DB :=
        if 0 < quantity then
          appendMovement db1
            ⟨store_id, product_id, quantity, unit_cost, "purchase", none,
              some "Initial inventory"⟩
        else db1
      .ok inventory_record db2

/-- `InventoryService.record_purchase`
(src/app/services/inventory_service.py:92-147).  Weighted-average costing;
delegates to `initialize_inventory` when no balance exists; the appended
`purchase` movement carries the incoming unit cost. -/
def record_purchase (db : DB) (store_id product_id : Nat) (quantity : Int)
    (unit_cost : Rat) (notes : Option String) : Res StoreInventory :=
  if quantity ≤ 0 then .err .invalidQuantity db
  else if unit_cost ≤ 0 then .err .invalidQuantity db
  else match get_by_store_and_product db store_id product_id with
    | none => initialize_inventory db store_id product_id quantity unit_cost
    | some inventory_record =>
      let new_quantity : Int := inventory_record.quantity_balance + quantity
      let new_total_cost : Rat :=
        inventory_record.total_cost + (quantity : Rat) * unit_cost
      let new_unit_cost : Rat :=
        if 0 < new_quantity then new_total_cost / (new_quantity : Rat)
        else unit_cost
      let updated : StoreInventory :=
        { inventory_record with
            quantity_balance := new_quantity
            unit_cost := new_unit_cost
            total_cost := new_total_cost }
      let db1 := store_inventory_update db store_id product_id updated
      let db2 := appendMovement db1
        ⟨store_id, product_id, quantity, unit_cost, "purchase", none, notes⟩
      .ok updated db2

/-- `InventoryService.record_sale`
(src/app/services/inventory_service.py:149-205). -/
def record_sale (db : DB) (store_id product_id : Nat) (quantity : Int)
    (transaction_id : Option Nat) (notes : Option String) :
    Res StoreInventory :=
  if quantity ≤ 0 then .err .invalidQuantity db
  else match get_by_store_and_product db store_id product_id with
    | none => .err .inventoryNotFound db
    | some inventory_record =>
      if inventory_record.quantity_balance < quantity then
        .err .insufficientStock db
      else
        let new_quantity : Int := inventory_record.quantity_balance - quantity
        let new_total_cost : Rat :=
          inventory_record.unit_cost * (new_quantity : Rat)
        let updated : StoreInventory :=
          { inventory_record with
              quantity_balance := new_quantity
              total_cost := new_total_cost }
        let db1 := store_inventory_update db store_id product_id updated
        let db2 := appendMovement db1
          ⟨store_id, product_id, -quantity, inventory_record.unit_cost,
            "sale", transaction_id, notes⟩
        .ok updated db2

/-- `InventoryService.record_adjustment`
(src/app/services/inventory_service.py:207-261). -/
def record_adjustment (db : DB) (store_id product_id : Nat)
    (quantity_change : Int) (notes : Option String) : Res StoreInventory :=
  if quantity_change = 0 then .err .invalidQuantity db
  else match get_by_store_and_product db store_id product_id with
    | none => .err .inventoryNotFound db
    | some inventory_record =>
      let new_quantity : Int :=
        inventory_record.quantity_balance + quantity_change
      if new_quantity < 0 then .err .insufficientStock db
      else
        let new_total_cost : Rat :=
          inventory_record.unit_cost * (new_quantity : Rat)
        let updated : StoreInventory :=
          { inventory_record with
              quantity_balance := new_quantity
              total_cost := new_total_cost }
        let db1 := store_inventory_update db store_id product_id updated
        let db2 := appendMovement db1
          ⟨store_id, product_id, quantity_change,
            inventory_record.unit_cost, "adjustment", none, notes⟩
        .ok updated db2

/-- `InventoryService.record_return`
(src/app/services/inventory_service.py:263-313). -/
def record_return (db : DB) (store_id product_id : Nat) (quantity : Int)
    (transaction_id : Option Nat) (notes : Option String) :
    Res StoreInventory :=
  if quantity ≤ 0 then .err .invalidQuantity db
  else match get_by_store_and_product db store_id product_id with
    | none => .err .inventoryNotFound db
    | some inventory_record =>
      let new_quantity : Int := inventory_record.quantity_balance + quantity
      let new_total_cost : Rat :=
        inventory_record.unit_cost * (new_quantity : Rat)
      let updated : StoreInventory :=
        { inventory_record with
            quantity_balance := new_quantity
            total_cost := new_total_cost }
      let db1 := store_inventory_update db store_id product_id updated
      let db2 := appendMovement db1
        ⟨store_id, product_id, quantity, inventory_record.unit_cost,
          "return", transaction_id, notes⟩
      .ok updated db2

/-- Note passed by `transfer_inventory` to the source-side adjustment. -/
def transfer_src_note (to_store_id : Nat) (notes : Option String) : String :=
  "Transfer to store " ++ toString to_store_id ++ ": " ++ notes.getD ""

/-- Note passed by `transfer_inventory` to the destination-side adjustment. -/
def transfer_dst_note (from_store_id : Nat) (notes : Option String) : String :=
  "Transfer from store " ++ toString from_store_id ++ ": " ++ notes.getD ""

/-- `InventoryService.transfer_inventory`
(src/app/services/inventory_service.py:315-386).  An adjustment of
`-quantity` at the source, then (destination balance present ? adjustment
of `+quantity` : `initialize_inventory` seeded with the source's unit
cost), then two further `transfer` movements, one per side. -/
def transfer_inventory (db : DB) (from_store_id to_store_id product_id : Nat)
    (quantity : Int) (notes : Option String) :
    Res (StoreInventory × StoreInventory) :=
  if quantity ≤ 0 then .err .invalidQuantity db
  else
    match record_adjustment db from_store_id product_id (-quantity)
        (some (transfer_src_note to_store_id notes)) with
    | .err e db1 => .err e db1
    | .ok from_inventory db1 =>
      let step2 : Res StoreInventory :=
        match get_by_store_and_product db1 to_store_id product_id with
        | none =>
          initialize_inventory db1 to_store_id product_id quantity
            from_inventory.unit_cost
        | some _ =>
          record_adjustment db1 to_store_id product_id quantity
            (some (transfer_dst_note from_store_id notes))
      match step2 with
      | .err e db2 => .err e db2
      | .ok to_inventory db2 =>
        let db3 := appendMovement db2
          ⟨from_store_id, product_id, -quantity, from_inventory.unit_cost,
            "transfer", none,
            some ("Transfer to store " ++ toString to_store_id)⟩
        let db4 := appendMovement db3
          ⟨to_store_id, product_id, quantity, from_inventory.unit_cost,
            "transfer", none,
            some ("Transfer from store " ++ toString from_store_id)⟩
        .ok (from_inventory, to_inventory) db4

/-- A requested line item passed to `create_transaction` (the dicts with
keys product_id / quantity / optional price). -/
structure ReqItem where
  product_id : Nat
  quantity : Int
  price : Option Rat
deriving DecidableEq, Repr

/-- A validated line item, with its resolved price. -/
structure VItem where
  product_id : Nat
  quantity : Int
  price : Rat
deriving DecidableEq, Repr

/-- `ProductPriceRepository.get_current_price`: current effective catalog
price of a product (the effective-date filtering collapses to a current
price per product in this model). -/
def get_current_price (db : DB) (product_id : Nat) : Option Rat :=
  (db.prices.find? (fun pr => pr.1 == product_id)).map (fun pr => pr.2)

/-- Price resolution of one line item in `create_transaction`: an
explicitly supplied price is taken as-is (no validation); otherwise the
current catalog price, failing with `InvalidTransactionError` if none. -/
def resolve_price (db : DB) (item : ReqItem) : Except Err Rat :=
  match item.price with
  | some p => .ok p
  | none =>
    match get_current_price db item.product_id with
    | some cp => .ok cp
    | none => .error .invalidTransaction

/-- The per-item validation loop of `TransactionService.create_transaction`
(src/app/services/transaction_service.py:74-116): quantity truthy and
positive, product exists, price resolved, advisory stock check against the
balance; accumulates the validated items and the running total.  The loop
finishes before any row is written. -/
def validate_items (db : DB) (store_id : Nat) :
    List ReqItem → Except Err (List VItem × Rat)
  | [] => .ok ([], 0)
  | item :: rest =>
    if item.quantity = 0 then .error .invalidTransaction
    else if item.quantity ≤ 0 then .error .invalidTransaction
    else if db.products.contains item.product_id = false then
      .error .productNotFound
    else match resolve_price db item with
      | .error e => .error e
      | .ok item_price =>
        match get_by_store_and_product db store_id item.product_id with
        | none => .error .insufficientStock
        | some inventory_record =>
          if inventory_record.quantity_balance < item.quantity then
            .error .insufficientStock
          else match validate_items db store_id rest with
            | .error e => .error e
            | .ok (vrest, total_rest) =>
              .ok (⟨item.product_id, item.quantity, item_price⟩ :: vrest,
                item_price * (item.quantity : Rat) + total_rest)

/-- `transaction.get`: the transaction row with the given id. -/
def transaction_get (db : DB) (transaction_id : Nat) : Option TransactionRow :=
  db.transactions.find? (fun t => t.id == transaction_id)

/-- `TransactionItemRepository.get_by_transaction`: the line items of a
transaction, in insertion order. -/
def get_by_transaction (db : DB) (transaction_id : Nat) :
    List TransactionItemRow :=
  db.transaction_items.filter (fun it => it.transaction_id == transaction_id)

/-- `transaction.update` with `obj_in = status`: overwrite the status of
the fetched transaction row. -/
def transaction_update_status (db : DB) (transaction_id : Nat)
    (status : String) : DB :=
  let newRows := updateFirst (fun t => t.id == transaction_id)
    (fun t => { t with status := status }) db.transactions
  { db with transactions := newRows }

/-- `transaction_item.create` for one validated item.  The commit enforces
the `transaction_items` CHECK constraints `quantity > 0` and `price > 0`
(src/app/models/transaction.py:92-95): a violating row makes the commit
raise `IntegrityError` and the row is not persisted. -/
def append_tx_item (transaction_id : Nat) (db : DB) (v : VItem) : Res Unit :=
  if v.quantity ≤ 0 then .err .integrityError db
  else if v.price ≤ 0 then .err .integrityError db
  else .ok () { db with transaction_items :=
      db.transaction_items ++ [⟨transaction_id, v.product_id, v.quantity, v.price⟩] }

/-- The item-creation loop of `create_transaction`
(src/app/services/transaction_service.py:129-136): each row commits on its
own, so the first `IntegrityError` aborts the loop with the rows created
before it still committed. -/
def create_tx_items (transaction_id : Nat) : DB → List VItem → Res Unit
  | db, [] => .ok () db
  | db, v :: rest =>
    match append_tx_item transaction_id db v with
    | .err e db1 => .err e db1
    | .ok _ db1 => create_tx_items transaction_id db1 rest

/-- `TransactionService.create_transaction`
(src/app/services/transaction_service.py:28-138).  Validates store,
employee, optional customer and the non-empty item list, runs the per-item
validation loop (computing `total_amount` before any write), then persists
the header in status `pending` followed by each line item.  The header's
commit enforces the `transactions` CHECK constraint `total_amount >= 0`
(src/app/models/transaction.py:47-52): a negative total makes it raise
`IntegrityError` before anything is persisted. -/
def create_transaction (db : DB) (store_id employee_id : Nat)
    (items : List ReqItem) (customer_id : Option Nat) : Res TransactionRow :=
  if db.stores.contains store_id = false then .err .storeNotFound db
  else if db.employees.contains employee_id = false then
    .err .employeeNotFound db
  else if customer_id.any (fun c => !db.customers.contains c) then
    .err .customerNotFound db
  else if items.isEmpty then .err .invalidTransaction db
  else match validate_items db store_id items with
    | .error e => .err e db
    | .ok (validated_items, total_amount) =>
      let new_transaction : TransactionRow :=
        ⟨db.next_id, customer_id, store_id, employee_id, total_amount,
          "pending"⟩
      if total_amount < 0 then .err .integrityError db
      else
        let db1 : DB :=
          { db with transactions := db.transactions ++ [new_transaction],
                    next_id := db.next_id + 1 }
        match create_tx_items new_transaction.id db1 validated_items with
        | .err e db2 => .err e db2
        | .ok _ db2 => .ok new_transaction db2

/-- Notes string attached by `complete_transaction` to each sale. -/
def sale_note (transaction_id : Nat) : String :=
  "Sale from transaction " ++ toString transaction_id

/-- The per-item sale loop of `complete_transaction`: each
`record_sale` commits on its own; the first failure aborts the loop with
the state reached so far. -/
def sell_items (store_id transaction_id : Nat) :
    DB → List TransactionItemRow → Res Unit
  | db, [] => .ok () db
  | db, item :: rest =>
    match record_sale db store_id item.product_id item.quantity
        (some transaction_id) (some (sale_note transaction_id)) with
    | .err e db1 => .err e db1
    | .ok _ db1 => sell_items store_id transaction_id db1 rest

/-- `TransactionService.complete_transaction`
(src/app/services/transaction_service.py:140-182). -/
def complete_transaction (db : DB) (transaction_id : Nat) :
    Res TransactionRow :=
  match transaction_get db transaction_id with
  | none => .err .transactionNotFound db
  | some transRow =>
    if transRow.status ≠ "pending" then .err .invalidTransaction db
    else
      match sell_items transRow.store_id transaction_id db
          (get_by_transaction db transaction_id) with
      | .err e db1 => .err e db1
      | .ok _ db1 =>
        .ok { transRow with status := "completed" }
          (transaction_update_status db1 transaction_id "completed")

/-- `TransactionService.cancel_transaction`
(src/app/services/transaction_service.py:184-214).  Never touches the
ledger. -/
def cancel_transaction (db : DB) (transaction_id : Nat) : Res TransactionRow :=
  match transaction_get db transaction_id with
  | none => .err .transactionNotFound db
  | some transRow =>
    if transRow.status = "cancelled" ∨ transRow.status = "refunded" then
      .err .invalidTransaction db
    else
      .ok { transRow with status := "cancelled" }
        (transaction_update_status db transaction_id "cancelled")

/-- Notes string attached by `refund_transaction` to each return. -/
def refund_note (transaction_id : Nat) : String :=
  "Refund for transaction " ++ toString transaction_id

/-- The per-item return loop of `refund_transaction`. -/
def return_items (store_id transaction_id : Nat) :
    DB → List TransactionItemRow → Res Unit
  | db, [] => .ok () db
  | db, item :: rest =>
    match record_return db store_id item.product_id item.quantity
        (some transaction_id) (some (refund_note transaction_id)) with
    | .err e db1 => .err e db1
    | .ok _ db1 => return_items store_id transaction_id db1 rest

/-- `TransactionService.refund_transaction`
(src/app/services/transaction_service.py:216-259). -/
def refund_transaction (db : DB) (transaction_id : Nat)
    (restore_inventory : Bool) : Res TransactionRow :=
  match transaction_get db transaction_id with
  | none => .err .transactionNotFound db
  | some transRow =>
    if transRow.status ≠ "completed" then .err .invalidTransaction db
    else
      let restored : Res Unit :=
        if restore_inventory then
          return_items transRow.store_id transaction_id db
            (get_by_transaction db transaction_id)
        else .ok () db
      match restored with
      | .err e db1 => .err e db1
      | .ok _ db1 =>
        .ok { transRow with status := "refunded" }
          (transaction_update_status db1 transaction_id "refunded")

/-- `ProductService.update_price`
(src/app/services/product_service.py:181-240): validates the product and
the new price, then records a new current catalog price row; only the
price list changes. -/
def update_price (db : DB) (product_id : Nat) (new_price : Rat) : Res Unit :=
  if db.products.contains product_id = false then .err .productNotFound db
  else if new_price ≤ 0 then .err .invalidPrice db
  else .ok () { db with prices := (product_id, new_price) :: db.prices }

/-- Movement rows of one (store, product) pair, in log order. -/
def movements_for (db : DB) (store_id product_id : Nat) : List Movement :=
  db.movements.filter
    (fun m => m.store_id == store_id && m.product_id == product_id)

/-- Sum of `quantity_change` over the movement log of one pair: what the
spec says the balance must always be reconstructable as. -/
def movement_sum (db : DB) (store_id product_id : Nat) : Int :=
  (movements_for db store_id product_id).foldl
    (fun acc m => acc + m.quantity_change) 0

/-- Quantity balance of a pair (0 when no balance row exists). -/
def balance_qty (db : DB) (store_id product_id : Nat) : Int :=
  ((get_by_store_and_product db store_id product_id).map
    (fun b => b.quantity_balance)).getD 0

/-- Status of a transaction, if it exists. -/
def tx_status (db : DB) (transaction_id : Nat) : Option String :=
  (transaction_get db transaction_id).map (fun t => t.status)

/-- Id/total pairs of all transaction rows (used to state that totals are
never recomputed). -/
def tx_totals (db : DB) : List (Nat × Rat) :=
  db.transactions.map (fun t => (t.id, t.total_amount))

/-- All balance rows hold a non-negative quantity. -/
def nonneg_balances (db : DB) : Prop :=
  ∀ b ∈ db.balances, 0 ≤ b.quantity_balance

/-! Concrete scenarios used by the claim theorems and witnesses. -/

/-- Two stores (1, 2), two products (10, 11), one employee (7), empty
ledger. -/
def exDB0 : DB := ⟨[1, 2], [10, 11], [7], [], [], [], [], [], [], 0⟩

/-- After `initialize_inventory(store 1, product 10, qty 10, cost 2)`. -/
def exDB1 : DB := (initialize_inventory exDB0 1 10 10 2).db

/-- A transfer of 5 units of product 10 from store 1 to store 2, run on
`exDB1`. -/
def exTransfer : Res (StoreInventory × StoreInventory) :=
  transfer_inventory exDB1 1 2 10 5 none

/-- State after the transfer of `exTransfer`. -/
def exDB2 : DB := exTransfer.db

/-- A pending transaction row (no items), and sibling rows in the other
three statuses, for exercising the state machine. -/
def exTxP : TransactionRow := ⟨0, none, 1, 7, 10, "pending"⟩

/-- A completed transaction row. -/
def exTxC : TransactionRow := ⟨0, none, 1, 7, 10, "completed"⟩

/-- A refunded transaction row. -/
def exTxR : TransactionRow := ⟨0, none, 1, 7, 10, "refunded"⟩

/-- Database holding only `exTxP`. -/
def exDBP : DB := ⟨[1, 2], [10, 11], [7], [], [], [], [], [exTxP], [], 1⟩

/-- Database holding only `exTxC`. -/
def exDBC : DB := ⟨[1, 2], [10, 11], [7], [], [], [], [], [exTxC], [], 1⟩

/-- Database holding only `exTxR`. -/
def exDBR : DB := ⟨[1, 2], [10, 11], [7], [], [], [], [], [exTxR], [], 1⟩

/-- Database with an empty store/product directory but an existing balance
for the pair (1, 10): store 1 and product 10 do NOT exist. -/
def exDBbare : DB := ⟨[], [], [], [], [], [⟨1, 10, 10, 2, 20⟩], [], [], [], 0⟩

/-- One stock-reducing ledger call, as quantified over by the
non-negativity property: a sale, an adjustment, or a transfer. -/
inductive LOp where
  | sale (store_id product_id : Nat) (quantity : Int)
      (transaction_id : Option Nat) (notes : Option String)
  | adjust (store_id product_id : Nat) (quantity_change : Int)
      (notes : Option String)
  | transfer (from_store_id to_store_id product_id : Nat) (quantity : Int)
      (notes : Option String)

/-- The committed state after one ledger call, whether it returned or
raised. -/
def apply_op (db : DB) : LOp → DB
  | .sale s p q r n => (record_sale db s p q r n).db
  | .adjust s p d n => (record_adjustment db s p d n).db
  | .transfer f t p q n => (transfer_inventory db f t p q n).db

/-- The committed state after a sequence of ledger calls. -/
def run_ops (db : DB) (ops : List LOp) : DB := ops.foldl apply_op db

/-- Ledger with a single store 1 (store 2 does NOT exist) and a balance of
10 units of product 10 at store 1. -/
def exSrcOnly : DB :=
  (initialize_inventory ⟨[1], [10], [7], [], [], [], [], [], [], 0⟩ 1 10 10 2).db

/-- A transfer out of `exSrcOnly` towards nonexistent store 2: the
destination-side initialization fails after the source-side adjustment has
already been committed. -/
def exBadTransfer : Res (StoreInventory × StoreInventory) :=
  transfer_inventory exSrcOnly 1 2 10 5 none

/-- The source balance row after the source-side adjustment of the failed
transfer. -/
def exAdjInv : StoreInventory := ⟨1, 10, 5, 2, 10⟩

/-- The committed state after the source-side adjustment of the failed
transfer. -/
def exAdjDB : DB :=
  (record_adjustment exSrcOnly 1 10 (-5) (some (transfer_src_note 2 none))).db

/-- Store 1 with 2 units each of products 10 and 11 (unit cost 1). -/
def exC2b : DB :=
  (initialize_inventory
    ((initialize_inventory ⟨[1], [10, 11], [7], [], [], [], [], [], [], 0⟩
        1 10 2 1).db)
    1 11 2 1).db

/-- A pending two-line order over products 10 and 11 (2 units each at
price 1), created while both lines pass the advisory stock check. -/
def exC2order : Res TransactionRow :=
  create_transaction exC2b 1 7 [⟨10, 2, some 1⟩, ⟨11, 2, some 1⟩] none

/-- State holding the pending order. -/
def exC2c : DB := exC2order.db

/-- State after an out-of-band sale of 1 unit of product 11: stock of
product 11 drops to 1, less than the order's second line needs. -/
def exC2d : DB := (record_sale exC2c 1 11 1 none none).db

/-- The completion attempt of the pending order on the depleted state. -/
def exC2res : Res TransactionRow := complete_transaction exC2d 0

/-- State after the failed completion attempt. -/
def exC2e : DB := exC2res.db

/-- The pending order's header row (total 1*2 + 1*2 = 4). -/
def exC2tx : TransactionRow := ⟨0, none, 1, 7, 4, "pending"⟩


/-! Claim theorems. -/

/-- C1: the ledger-reconstruction invariant fails on the code.  After
initializing (store 1, product 10) with 10 units and then successfully
transferring 5 units to store 2, the source balance is 5 while the sum of
`quantity_change` over the source pair's movements is 0, and the
destination balance is 5 while its movement sum is 10: `transfer_inventory`
records each side's change twice, once through the helper
(`record_adjustment` / `initialize_inventory`) and once more as a dedicated
`transfer` movement, so the balance is no longer the running sum of the
pair's movements. -/
theorem c1_transfer_breaks_reconstruction :
    exTransfer.isOk = true ∧
    balance_qty exDB2 1 10 = 5 ∧ movement_sum exDB2 1 10 = 0 ∧
    balance_qty exDB2 2 10 = 5 ∧ movement_sum exDB2 2 10 = 10 :=
  ⟨rfl, rfl, rfl, rfl, rfl⟩

/-- C4: a successful transfer appends FOUR movement records, not two.  On
the `exTransfer` scenario the log grows from 1 row to 5: the source-side
adjustment and the destination-side initialization each write their own
movement (`adjustment` resp. `purchase`), and only then are the two
`transfer` movements appended. -/
theorem c4_transfer_appends_four_movements :
    exTransfer.isOk = true ∧
    exDB1.movements.length = 1 ∧
    exDB2.movements.length = 5 ∧
    exDB2.movements.map (fun m => m.movement_type) =
      ["purchase", "adjustment", "purchase", "transfer", "transfer"] ∧
    exDB2.movements.map (fun m => m.quantity_change) = [10, -5, 5, -5, 5] :=
  ⟨rfl, rfl, rfl, rfl, rfl⟩

/-- C5: legality of the order state machine.  For an existing order:
`complete` returns normally only from status `pending`; `refund` (with
either restore flag) only from `completed`; `cancel` from any status other
than `cancelled`/`refunded` (hence, for rows carrying one of the four
legal statuses, exactly from `pending` or `completed`); every illegal
attempt raises `InvalidTransactionError` with the state returned exactly
as it was; and cancelling an order whose status is `pending` or
`completed` always SUCCEEDS, flipping the status to `cancelled`. -/
theorem c5_state_machine_legality :
    (∀ db tid t t2 db2, transaction_get db tid = some t →
        complete_transaction db tid = .ok t2 db2 → t.status = "pending") ∧
    (∀ db tid t b t2 db2, transaction_get db tid = some t →
        refund_transaction db tid b = .ok t2 db2 → t.status = "completed") ∧
    (∀ db tid t t2 db2, transaction_get db tid = some t →
        t.status = "pending" ∨ t.status = "completed" ∨
          t.status = "refunded" ∨ t.status = "cancelled" →
        cancel_transaction db tid = .ok t2 db2 →
        t.status = "pending" ∨ t.status = "completed") ∧
    (∀ db tid t, transaction_get db tid = some t → t.status ≠ "pending" →
        complete_transaction db tid = .err .invalidTransaction db) ∧
    (∀ db tid t b, transaction_get db tid = some t →
        t.status ≠ "completed" →
        refund_transaction db tid b = .err .invalidTransaction db) ∧
    (∀ db tid t, transaction_get db tid = some t →
        t.status = "cancelled" ∨ t.status = "refunded" →
        cancel_transaction db tid = .err .invalidTransaction db) ∧
    (∀ db tid t, transaction_get db tid = some t →
        t.status = "pending" ∨ t.status = "completed" →
        cancel_transaction db tid =
          .ok { t with status := "cancelled" }
            (transaction_update_status db tid "cancelled")) := by
  refine ⟨?_, ?_, ?_, ?_, ?_, ?_, ?_⟩
  · intro db tid t t2 db2 hget hok
    unfold complete_transaction at hok
    rw [hget] at hok
    dsimp only at hok
    by_cases hs : t.status = "pending"
    · exact hs
    · rw [if_pos hs] at hok
      exact absurd hok (by simp)
  · intro db tid t b t2 db2 hget hok
    unfold refund_transaction at hok
    rw [hget] at hok
    dsimp only at hok
    by_cases hs : t.status = "completed"
    · exact hs
    · rw [if_pos hs] at hok
      exact absurd hok (by simp)
  · intro db tid t t2 db2 hget hwf hok
    unfold cancel_transaction at hok
    rw [hget] at hok
    dsimp only at hok
    by_cases hs : t.status = "cancelled" ∨ t.status = "refunded"
    · rw [if_pos hs] at hok
      exact absurd hok (by simp)
    · rcases hwf with h | h | h | h
      · exact Or.inl h
      · exact Or.inr h
      · exact absurd (Or.inr h) hs
      · exact absurd (Or.inl h) hs
  · intro db tid t hget hs
    unfold complete_transaction
    rw [hget]
    dsimp only
    rw [if_pos hs]
  · intro db tid t b hget hs
    unfold refund_transaction
    rw [hget]
    dsimp only
    rw [if_pos hs]
  · intro db tid t hget hs
    unfold cancel_transaction
    rw [hget]
    dsimp only
    rw [if_pos hs]
  · intro db tid t hget hwf
    unfold cancel_transaction
    rw [hget]
    dsimp only
    have hs : ¬ (t.status = "cancelled" ∨ t.status = "refunded") := by
      rcases hwf with h | h
      · rw [h]
        decide
      · rw [h]
        decide
    rw [if_neg hs]

/-- C5 witness: the four statuses exercised on concrete one-row databases:
completing a completed order, refunding a pending order and cancelling a
refunded order each fail with `InvalidTransactionError` leaving the state
untouched; cancelling the pending order `exTxP` and the completed order
`exTxC` each SUCCEED, flipping the status to `cancelled`; a successful
completion certifies the source status `pending`, and a successful
cancellation of `exTxC` certifies `pending ∨ completed`. -/
theorem c5_state_machine_legality_witness :
    exTxP.status = "pending" ∧
    (exTxC.status = "pending" ∨ exTxC.status = "completed") ∧
    complete_transaction exDBC 0 = .err .invalidTransaction exDBC ∧
    refund_transaction exDBP 0 true = .err .invalidTransaction exDBP ∧
    cancel_transaction exDBR 0 = .err .invalidTransaction exDBR ∧
    cancel_transaction exDBP 0 =
      .ok { exTxP with status := "cancelled" }
        (transaction_update_status exDBP 0 "cancelled") ∧
    cancel_transaction exDBC 0 =
      .ok { exTxC with status := "cancelled" }
        (transaction_update_status exDBC 0 "cancelled") :=
  ⟨c5_state_machine_legality.1 exDBP 0 exTxP { exTxP with status := "completed" }
      (transaction_update_status exDBP 0 "completed") rfl rfl,
   c5_state_machine_legality.2.2.1 exDBC 0 exTxC
      { exTxC with status := "cancelled" }
      (transaction_update_status exDBC 0 "cancelled") rfl
      (Or.inr (Or.inl rfl)) rfl,
   c5_state_machine_legality.2.2.2.1 exDBC 0 exTxC rfl (by decide),
   c5_state_machine_legality.2.2.2.2.1 exDBP 0 exTxP true rfl (by decide),
   c5_state_machine_legality.2.2.2.2.2.1 exDBR 0 exTxR rfl (Or.inr rfl),
   c5_state_machine_legality.2.2.2.2.2.2 exDBP 0 exTxP rfl (Or.inl rfl),
   c5_state_machine_legality.2.2.2.2.2.2 exDBC 0 exTxC rfl (Or.inr rfl)⟩

/-- C7: weighted-average costing of `record_purchase` on an existing
balance: the new quantity is `old + q`, the new total cost is
`oldTotal + q * cost`, the new unit cost is the quotient of the two, and
the appended `purchase` movement carries the INCOMING unit cost `c`, not
the blended average. -/
theorem c7_weighted_average_purchase (db : DB) (s p : Nat) (q : Int)
    (c : Rat) (n : Option String) (inv : StoreInventory)
    (hq : 0 < q) (hc : 0 < c)
    (hinv : get_by_store_and_product db s p = some inv)
    (hnn : 0 ≤ inv.quantity_balance) :
    record_purchase db s p q c n =
      .ok { inv with
              quantity_balance := inv.quantity_balance + q
              unit_cost := (inv.total_cost + (q : Rat) * c) /
                ((inv.quantity_balance + q : Int) : Rat)
              total_cost := inv.total_cost + (q : Rat) * c }
        (appendMovement
          (store_inventory_update db s p
            { inv with
                quantity_balance := inv.quantity_balance + q
                unit_cost := (inv.total_cost + (q : Rat) * c) /
                  ((inv.quantity_balance + q : Int) : Rat)
                total_cost := inv.total_cost + (q : Rat) * c })
          ⟨s, p, q, c, "purchase", none, n⟩) := by
  have hq' : ¬ q ≤ 0 := not_le.mpr hq
  have hc' : ¬ c ≤ 0 := not_le.mpr hc
  have hpos : 0 < inv.quantity_balance + q := by omega
  unfold record_purchase
  rw [if_neg hq', if_neg hc', hinv]
  dsimp only
  rw [if_pos hpos]

/-- C7 witness: the spec's worked example.  `initialize(qty 10, cost 2)`
then `purchase(qty 5, cost 4)` yields quantity 15, unit cost 8/3
(= 2.666…, the exact value of (10*2 + 5*4)/15) and total cost 40, and the
purchase movement is recorded at the incoming cost 4. -/
theorem c7_weighted_average_purchase_witness :
    get_by_store_and_product exDB1 1 10 = some ⟨1, 10, 10, 2, 20⟩ ∧
    record_purchase exDB1 1 10 5 4 none =
      .ok ⟨1, 10, 15, 8 / 3, 40⟩ ((record_purchase exDB1 1 10 5 4 none).db) ∧
    ((record_purchase exDB1 1 10 5 4 none).db).movements.map
        (fun m => (m.movement_type, m.unit_cost)) =
      [("purchase", 2), ("purchase", 4)] := by
  have h := c7_weighted_average_purchase exDB1 1 10 5 4 none
    ⟨1, 10, 10, 2, 20⟩ (by decide) (by decide) (by with_unfolding_all rfl)
    (by decide)
  refine ⟨by with_unfolding_all rfl, ?_, by with_unfolding_all rfl⟩
  rw [h]
  with_unfolding_all rfl

/-- C9 (amended): initializing inventory for a pair that already has a
balance fails — but with Python's built-in `ValueError`
(src/app/services/inventory_service.py:65), not with a
`DuplicateBalanceError`; no such exception class exists in
src/app/core/exceptions.py.  The state is returned untouched, so no
balance row and no movement row is created. -/
theorem c9_duplicate_initialize_value_error (db : DB) (s p : Nat)
    (q : Int) (c : Rat) (inv : StoreInventory)
    (hs : db.stores.contains s = true) (hp : db.products.contains p = true)
    (hq : ¬ q < 0) (hc : ¬ c ≤ 0)
    (hdup : get_by_store_and_product db s p = some inv) :
    initialize_inventory db s p q c = .err .valueError db := by
  unfold initialize_inventory
  rw [hs, hp]
  rw [if_neg (by simp), if_neg (by simp), if_neg hq, if_neg hc, hdup]

/-- C9 counterexample: on the concrete duplicate initialization
`initialize_inventory exDB1 1 10 3 2` (the pair (1, 10) already has a
balance), the raised error is `valueError` — Python's built-in
`ValueError`, not an application exception (the `Err` type enumerates
every exception class of src/app/core/exceptions.py and contains no
duplicate-balance error) — and the database is returned exactly
unchanged. -/
theorem c9_duplicate_raises_builtin_value_error :
    initialize_inventory exDB1 1 10 3 2 = .err .valueError exDB1 ∧
    exDB1.balances.length = 1 ∧ exDB1.movements.length = 1 :=
  ⟨rfl, rfl, rfl⟩

/-- C9 witness: the amended theorem applied to the concrete duplicate
initialization on `exDB1`. -/
theorem c9_duplicate_initialize_value_error_witness :
    initialize_inventory exDB1 1 10 7 5 = .err .valueError exDB1 :=
  c9_duplicate_initialize_value_error exDB1 1 10 7 5 ⟨1, 10, 10, 2, 20⟩
    (by rfl) (by rfl) (by decide) (by decide) (by with_unfolding_all rfl)

/-- C10: `initialize_inventory` checks that the store exists and then that
the product exists before writing anything (the error state is the input
state); `record_purchase` with no existing balance delegates to
`initialize_inventory` (hence performs the same checks before any write);
and `record_purchase` on an existing balance performs NO store or product
existence check: it returns normally for an arbitrary database, in
particular one whose store/product directories do not contain the pair's
ids. -/
theorem c10_existence_checks :
    (∀ db s p q c, db.stores.contains s = false →
        initialize_inventory db s p q c = .err .storeNotFound db) ∧
    (∀ db s p q c, db.stores.contains s = true →
        db.products.contains p = false →
        initialize_inventory db s p q c = .err .productNotFound db) ∧
    (∀ db s p q c n, ¬ q ≤ 0 → ¬ c ≤ 0 →
        get_by_store_and_product db s p = none →
        record_purchase db s p q c n = initialize_inventory db s p q c) ∧
    (∀ db s p q c n inv, ¬ q ≤ 0 → ¬ c ≤ 0 →
        get_by_store_and_product db s p = some inv →
        (record_purchase db s p q c n).isOk = true) := by
  refine ⟨?_, ?_, ?_, ?_⟩
  · intro db s p q c h
    unfold initialize_inventory
    rw [h, if_pos rfl]
  · intro db s p q c hs hp
    unfold initialize_inventory
    rw [hs, hp]
    rw [if_neg (by simp), if_pos rfl]
  · intro db s p q c n hq hc hnone
    unfold record_purchase
    rw [if_neg hq, if_neg hc, hnone]
  · intro db s p q c n inv hq hc hsome
    unfold record_purchase
    rw [if_neg hq, if_neg hc, hsome]
    rfl

/-- C10 witness: on `exDBbare` (empty store/product directory but an
existing balance for (1, 10)), `initialize_inventory` fails with
store-not-found while `record_purchase` succeeds — no existence check on
the existing-balance path; on `exDB0`, a missing product is reported after
the store check, and a purchase of a fresh pair equals its delegated
initialization. -/
theorem c10_existence_checks_witness :
    initialize_inventory exDBbare 1 10 5 2 = .err .storeNotFound exDBbare ∧
    initialize_inventory exDB0 1 99 5 2 = .err .productNotFound exDB0 ∧
    record_purchase exDB0 2 11 5 4 none = initialize_inventory exDB0 2 11 5 4 ∧
    (record_purchase exDBbare 1 10 5 4 none).isOk = true :=
  ⟨c10_existence_checks.1 exDBbare 1 10 5 2 (by rfl),
   c10_existence_checks.2.1 exDB0 1 99 5 2 (by rfl) (by rfl),
   c10_existence_checks.2.2.1 exDB0 2 11 5 4 none (by decide) (by decide)
     (by rfl),
   c10_existence_checks.2.2.2 exDBbare 1 10 5 4 none ⟨1, 10, 10, 2, 20⟩
     (by decide) (by decide) (by with_unfolding_all rfl)⟩

/-- Membership after `updateFirst`: every element was already there or is
the image of one that was. -/
theorem mem_updateFirst {p : α → Bool} {f : α → α} {l : List α} {x : α}
    (hx : x ∈ updateFirst p f l) : x ∈ l ∨ ∃ y ∈ l, x = f y := by
  induction l with
  | nil => simp [updateFirst] at hx
  | cons a as ih =>
    rw [updateFirst] at hx
    by_cases h : p a
    · rw [if_pos h] at hx
      rcases List.mem_cons.mp hx with h1 | h1
      · exact Or.inr ⟨a, List.mem_cons_self a as, h1⟩
      · exact Or.inl (List.mem_cons_of_mem a h1)
    · rw [if_neg h] at hx
      rcases List.mem_cons.mp hx with h1 | h1
      · exact Or.inl (h1 ▸ List.mem_cons_self a as)
      · rcases ih h1 with h2 | ⟨y, hy, hxy⟩
        · exact Or.inl (List.mem_cons_of_mem a h2)
        · exact Or.inr ⟨y, List.mem_cons_of_mem a hy, hxy⟩

/-- Overwriting one balance row with a non-negative row preserves
non-negativity. -/
theorem nonneg_store_inventory_update {db : DB} {s p : Nat}
    {nb : StoreInventory} (h : nonneg_balances db)
    (hnb : 0 ≤ nb.quantity_balance) :
    nonneg_balances (store_inventory_update db s p nb) := by
  intro b hb
  simp only [store_inventory_update] at hb
  rcases mem_updateFirst hb with h1 | ⟨y, _, hby⟩
  · exact h b h1
  · rw [hby]
    exact hnb

/-- Appending a movement does not touch the balances. -/
theorem nonneg_appendMovement {db : DB} {m : Movement}
    (h : nonneg_balances db) : nonneg_balances (appendMovement db m) := h

/-- `initialize_inventory` preserves non-negativity of all balances: the
created row's quantity passed the `quantity < 0` check. -/
theorem initialize_inventory_nonneg {db : DB} {s p : Nat} {q : Int} {c : Rat}
    (h : nonneg_balances db) :
    nonneg_balances (initialize_inventory db s p q c).db := by
  unfold initialize_inventory
  by_cases h1 : db.stores.contains s = false
  · rw [if_pos h1]; exact h
  rw [if_neg h1]
  by_cases h2 : db.products.contains p = false
  · rw [if_pos h2]; exact h
  rw [if_neg h2]
  by_cases h3 : q < 0
  · rw [if_pos h3]; exact h
  rw [if_neg h3]
  by_cases h4 : c ≤ 0
  · rw [if_pos h4]; exact h
  rw [if_neg h4]
  cases hg : get_by_store_and_product db s p with
  | some b => exact h
  | none =>
    dsimp only [Res.db]
    by_cases h5 : 0 < q
    · rw [if_pos h5]
      intro b hb
      rcases List.mem_append.mp hb with h6 | h6
      · exact h b h6
      · rw [List.mem_singleton.mp h6]
        show (0 : Int) ≤ q
        omega
    · rw [if_neg h5]
      intro b hb
      rcases List.mem_append.mp hb with h6 | h6
      · exact h b h6
      · rw [List.mem_singleton.mp h6]
        show (0 : Int) ≤ q
        omega

/-- `record_sale` preserves non-negativity: the updated row's quantity is
`old - q` and passed the insufficient-stock check. -/
theorem nonneg_record_sale {db : DB} {s p : Nat} {q : Int}
    {r : Option Nat} {n : Option String} (h : nonneg_balances db) :
    nonneg_balances (record_sale db s p q r n).db := by
  unfold record_sale
  by_cases h1 : q ≤ 0
  · rw [if_pos h1]; exact h
  rw [if_neg h1]
  cases hg : get_by_store_and_product db s p with
  | none => exact h
  | some inv =>
    dsimp only
    by_cases h2 : inv.quantity_balance < q
    · rw [if_pos h2]; exact h
    rw [if_neg h2]
    dsimp only [Res.db]
    exact nonneg_appendMovement
      (nonneg_store_inventory_update h (by dsimp only; omega))

/-- `record_adjustment` preserves non-negativity: the updated quantity
passed the `new_quantity < 0` check. -/
theorem nonneg_record_adjustment {db : DB} {s p : Nat} {d : Int}
    {n : Option String} (h : nonneg_balances db) :
    nonneg_balances (record_adjustment db s p d n).db := by
  unfold record_adjustment
  by_cases h1 : d = 0
  · rw [if_pos h1]; exact h
  rw [if_neg h1]
  cases hg : get_by_store_and_product db s p with
  | none => exact h
  | some inv =>
    dsimp only
    by_cases h2 : inv.quantity_balance + d < 0
    · rw [if_pos h2]; exact h
    rw [if_neg h2]
    dsimp only [Res.db]
    exact nonneg_appendMovement
      (nonneg_store_inventory_update h (by dsimp only; omega))

/-- `transfer_inventory` preserves non-negativity: both sides go through
the guarded adjustment / initialization. -/
theorem nonneg_transfer {db : DB} {f t p : Nat} {q : Int}
    {n : Option String} (h : nonneg_balances db) :
    nonneg_balances (transfer_inventory db f t p q n).db := by
  unfold transfer_inventory
  by_cases h1 : q ≤ 0
  · rw [if_pos h1]; exact h
  rw [if_neg h1]
  have hadj : nonneg_balances
      (record_adjustment db f p (-q) (some (transfer_src_note t n))).db :=
    nonneg_record_adjustment h
  cases hres : record_adjustment db f p (-q) (some (transfer_src_note t n)) with
  | err e db1 =>
    rw [hres] at hadj
    exact hadj
  | ok from_inv db1 =>
    rw [hres] at hadj
    dsimp only
    cases hg : get_by_store_and_product db1 t p with
    | none =>
      have hinit : nonneg_balances
          (initialize_inventory db1 t p q from_inv.unit_cost).db :=
        initialize_inventory_nonneg hadj
      cases hres2 : initialize_inventory db1 t p q from_inv.unit_cost with
      | err e db2 =>
        rw [hres2] at hinit
        exact hinit
      | ok to_inv db2 =>
        rw [hres2] at hinit
        exact nonneg_appendMovement (nonneg_appendMovement hinit)
    | some b =>
      have hadj2 : nonneg_balances
          (record_adjustment db1 t p q (some (transfer_dst_note f n))).db :=
        nonneg_record_adjustment hadj
      cases hres2 : record_adjustment db1 t p q (some (transfer_dst_note f n)) with
      | err e db2 =>
        rw [hres2] at hadj2
        exact hadj2
      | ok to_inv db2 =>
        rw [hres2] at hadj2
        exact nonneg_appendMovement (nonneg_appendMovement hadj2)

/-- C8: non-negativity.  (i) No sequence of sale / adjustment / transfer
calls, successful or failing, can drive any `quantity_balance` below
zero.  (ii) A sale of more than the available balance fails with
`InsufficientStockError` and returns the state exactly unchanged; (iii) so
does an adjustment whose resulting quantity would be negative; (iv) so
does a transfer whose source balance is smaller than the transferred
quantity. -/
theorem c8_nonnegativity :
    (∀ db ops, nonneg_balances db → nonneg_balances (run_ops db ops)) ∧
    (∀ db s p q r n inv, 0 < q →
        get_by_store_and_product db s p = some inv →
        inv.quantity_balance < q →
        record_sale db s p q r n = .err .insufficientStock db) ∧
    (∀ db s p d n inv, d ≠ 0 →
        get_by_store_and_product db s p = some inv →
        inv.quantity_balance + d < 0 →
        record_adjustment db s p d n = .err .insufficientStock db) ∧
    (∀ db f t p q n inv, 0 < q →
        get_by_store_and_product db f p = some inv →
        inv.quantity_balance < q →
        transfer_inventory db f t p q n = .err .insufficientStock db) := by
  have hadjerr : ∀ db s p d n (inv : StoreInventory), d ≠ 0 →
      get_by_store_and_product db s p = some inv →
      inv.quantity_balance + d < 0 →
      record_adjustment db s p d n = .err .insufficientStock db := by
    intro db s p d n inv hd hinv hlt
    unfold record_adjustment
    rw [if_neg hd, hinv]
    dsimp only
    rw [if_pos hlt]
  refine ⟨?_, ?_, hadjerr, ?_⟩
  · intro db ops
    induction ops generalizing db with
    | nil => exact fun h => h
    | cons o rest ih =>
      intro h
      have h1 : nonneg_balances (apply_op db o) := by
        cases o with
        | sale s p q r n => exact nonneg_record_sale h
        | adjust s p d n => exact nonneg_record_adjustment h
        | transfer f t p q n => exact nonneg_transfer h
      exact ih (apply_op db o) h1
  · intro db s p q r n inv hq hinv hlt
    unfold record_sale
    rw [if_neg (not_le.mpr hq), hinv]
    dsimp only
    rw [if_pos hlt]
  · intro db f t p q n inv hq hinv hlt
    unfold transfer_inventory
    rw [if_neg (not_le.mpr hq)]
    rw [hadjerr db f p (-q) (some (transfer_src_note t n)) inv
      (by omega) hinv (by omega)]

/-- C8 witness: on the concrete ledger `exDB1` (balance 10 at (1, 10)),
running a sale of 4, an excessive sale of 20, an adjustment of -6, an
excessive adjustment of -100 and a transfer of 50 keeps every balance
non-negative; and the excessive sale, adjustment and transfer each return
`InsufficientStockError` with the state unchanged. -/
theorem c8_nonnegativity_witness :
    nonneg_balances (run_ops exDB1
      [.sale 1 10 4 none none, .sale 1 10 20 none none,
       .adjust 1 10 (-6) none, .adjust 1 10 (-100) none,
       .transfer 1 2 10 50 none]) ∧
    record_sale exDB1 1 10 20 none none = .err .insufficientStock exDB1 ∧
    record_adjustment exDB1 1 10 (-100) none =
      .err .insufficientStock exDB1 ∧
    transfer_inventory exDB1 1 2 10 50 none =
      .err .insufficientStock exDB1 :=
  ⟨c8_nonnegativity.1 exDB1 _ (by intro b hb; fin_cases hb; decide),
   c8_nonnegativity.2.1 exDB1 1 10 20 none none ⟨1, 10, 10, 2, 20⟩
     (by decide) (by with_unfolding_all rfl) (by decide),
   c8_nonnegativity.2.2.1 exDB1 1 10 (-100) none ⟨1, 10, 10, 2, 20⟩
     (by decide) (by with_unfolding_all rfl) (by decide),
   c8_nonnegativity.2.2.2 exDB1 1 2 10 50 none ⟨1, 10, 10, 2, 20⟩
     (by decide) (by with_unfolding_all rfl) (by decide)⟩

/-- An erring `record_adjustment` returns the input state: every raise
happens before any write. -/
theorem record_adjustment_err_state {db : DB} {s p : Nat} {d : Int}
    {n : Option String} {e : Err} {db1 : DB}
    (h : record_adjustment db s p d n = .err e db1) : db1 = db := by
  unfold record_adjustment at h
  by_cases h1 : d = 0
  · rw [if_pos h1] at h
    injection h with _ hb
    exact hb.symm
  rw [if_neg h1] at h
  cases hg : get_by_store_and_product db s p with
  | none =>
    rw [hg] at h
    injection h with _ hb
    exact hb.symm
  | some old =>
    rw [hg] at h
    dsimp only at h
    by_cases h2 : old.quantity_balance + d < 0
    · rw [if_pos h2] at h
      injection h with _ hb
      exact hb.symm
    · rw [if_neg h2] at h
      exact Res.noConfusion h

/-- An erring `initialize_inventory` returns the input state. -/
theorem initialize_err_state {db : DB} {s p : Nat} {q : Int} {c : Rat}
    {e : Err} {db1 : DB}
    (h : initialize_inventory db s p q c = .err e db1) : db1 = db := by
  unfold initialize_inventory at h
  by_cases h1 : db.stores.contains s = false
  · rw [if_pos h1] at h
    injection h with _ hb
    exact hb.symm
  rw [if_neg h1] at h
  by_cases h2 : db.products.contains p = false
  · rw [if_pos h2] at h
    injection h with _ hb
    exact hb.symm
  rw [if_neg h2] at h
  by_cases h3 : q < 0
  · rw [if_pos h3] at h
    injection h with _ hb
    exact hb.symm
  rw [if_neg h3] at h
  by_cases h4 : c ≤ 0
  · rw [if_pos h4] at h
    injection h with _ hb
    exact hb.symm
  rw [if_neg h4] at h
  cases hg : get_by_store_and_product db s p with
  | some b =>
    rw [hg] at h
    injection h with _ hb
    exact hb.symm
  | none =>
    rw [hg] at h
    exact Res.noConfusion h

/-- A successful `record_adjustment` updates the fetched row to
quantity `old + d` at unchanged unit cost and appends exactly one
`adjustment` movement. -/
theorem record_adjustment_ok_spec {db : DB} {s p : Nat} {d : Int}
    {n : Option String} {inv : StoreInventory} {db1 : DB}
    (h : record_adjustment db s p d n = .ok inv db1) :
    ∃ old, get_by_store_and_product db s p = some old ∧
      inv = { old with
                quantity_balance := old.quantity_balance + d
                total_cost := old.unit_cost *
                  ((old.quantity_balance + d : Int) : Rat) } ∧
      db1 = appendMovement (store_inventory_update db s p inv)
        ⟨s, p, d, old.unit_cost, "adjustment", none, n⟩ := by
  unfold record_adjustment at h
  by_cases h1 : d = 0
  · rw [if_pos h1] at h
    exact Res.noConfusion h
  rw [if_neg h1] at h
  cases hg : get_by_store_and_product db s p with
  | none =>
    rw [hg] at h
    exact Res.noConfusion h
  | some old =>
    rw [hg] at h
    dsimp only at h
    by_cases h2 : old.quantity_balance + d < 0
    · rw [if_pos h2] at h
      exact Res.noConfusion h
    rw [if_neg h2] at h
    injection h with ha hb
    subst ha
    subst hb
    exact ⟨old, rfl, rfl, rfl⟩

/-- After overwriting the first row matching `p` with a row that still
matches `p`, `find?` returns the new row. -/
theorem find?_updateFirst {p : α → Bool} {nb : α} {l : List α} {a : α}
    (hfind : l.find? p = some a) (hnb : p nb = true) :
    (updateFirst p (fun _ => nb) l).find? p = some nb := by
  induction l with
  | nil => simp at hfind
  | cons x xs ih =>
    by_cases hx : p x = true
    · rw [updateFirst, if_pos hx]
      exact List.find?_cons_of_pos _ hnb
    · rw [updateFirst, if_neg hx]
      rw [List.find?_cons_of_neg _ (by simpa using hx)]
      rw [List.find?_cons_of_neg _ (by simpa using hx)] at hfind
      exact ih hfind

/-- C3 (amended): when a transfer fails on its destination side (the
source-side adjustment returned normally but the destination-side
initialization or adjustment raised), the committed state is exactly the
state after the source-side adjustment: the source pair's balance HAS been
decremented by the transferred quantity, its movement log HAS grown by one
`adjustment` movement, and only the two dedicated `transfer` movements are
absent.  The source side is NOT rolled back. -/
theorem c3_transfer_source_persists (db : DB) (f t p : Nat) (q : Int)
    (n : Option String) (inv : StoreInventory) (db1 : DB) (e : Err)
    (db2 : DB) (hq : 0 < q)
    (hsrc : record_adjustment db f p (-q)
      (some (transfer_src_note t n)) = .ok inv db1)
    (hfail : transfer_inventory db f t p q n = .err e db2) :
    db2 = db1 ∧
    (∃ old, get_by_store_and_product db f p = some old ∧
      inv.quantity_balance = old.quantity_balance - q ∧
      inv.unit_cost = old.unit_cost ∧
      get_by_store_and_product db1 f p = some inv ∧
      db1.movements = db.movements ++
        [⟨f, p, -q, old.unit_cost, "adjustment", none,
          some (transfer_src_note t n)⟩]) ∧
    db2.movements.filter (fun m => m.movement_type == "transfer") =
      db.movements.filter (fun m => m.movement_type == "transfer") := by
  obtain ⟨old, hg, hinv, hdb1⟩ := record_adjustment_ok_spec hsrc
  have hdb2 : db2 = db1 := by
    unfold transfer_inventory at hfail
    rw [if_neg (not_le.mpr hq), hsrc] at hfail
    dsimp only at hfail
    cases hdest : get_by_store_and_product db1 t p with
    | none =>
      rw [hdest] at hfail
      dsimp only at hfail
      cases hres : initialize_inventory db1 t p q inv.unit_cost with
      | err e2 db3 =>
        rw [hres] at hfail
        have h3 : db3 = db1 := initialize_err_state hres
        injection hfail with _ hb
        rw [← hb]
        exact h3
      | ok v db3 =>
        rw [hres] at hfail
        exact Res.noConfusion hfail
    | some b =>
      rw [hdest] at hfail
      dsimp only at hfail
      cases hres : record_adjustment db1 t p q
          (some (transfer_dst_note f n)) with
      | err e2 db3 =>
        rw [hres] at hfail
        have h3 : db3 = db1 := record_adjustment_err_state hres
        injection hfail with _ hb
        rw [← hb]
        exact h3
      | ok v db3 =>
        rw [hres] at hfail
        exact Res.noConfusion hfail
  have hkey : bal_key f p inv = true := by
    have hold : bal_key f p old = true := List.find?_some hg
    rw [hinv]
    exact hold
  refine ⟨hdb2, ⟨old, hg, ?_, ?_, ?_, ?_⟩, ?_⟩
  · rw [hinv]
    dsimp only
    omega
  · rw [hinv]
  · rw [hdb1]
    exact find?_updateFirst hg hkey
  · rw [hdb1]
    rfl
  · rw [hdb2, hdb1]
    show (db.movements ++ [_]).filter _ = db.movements.filter _
    rw [List.filter_append]
    simp

/-- C3 counterexample: on `exSrcOnly` (store 2 does not exist, so the
destination-side initialization of a transfer fails with
`StoreNotFoundError`), the failed transfer leaves the SOURCE pair changed:
its balance has dropped from 10 to 5 and its movement log has grown from
one row to two — not "exactly as before the transfer attempt" as the
claim requires. -/
theorem c3_failed_transfer_leaves_source_changed :
    exBadTransfer = .err .storeNotFound exBadTransfer.db ∧
    balance_qty exSrcOnly 1 10 = 10 ∧
    balance_qty exBadTransfer.db 1 10 = 5 ∧
    (movements_for exSrcOnly 1 10).length = 1 ∧
    (movements_for exBadTransfer.db 1 10).length = 2 :=
  ⟨rfl, rfl, rfl, rfl, rfl⟩

/-- C3 witness: the amended theorem applied to the concrete failed
transfer on `exSrcOnly`. -/
theorem c3_transfer_source_persists_witness :
    exBadTransfer.db = exAdjDB ∧
    (∃ old, get_by_store_and_product exSrcOnly 1 10 = some old ∧
      exAdjInv.quantity_balance = old.quantity_balance - 5 ∧
      exAdjInv.unit_cost = old.unit_cost ∧
      get_by_store_and_product exAdjDB 1 10 = some exAdjInv ∧
      exAdjDB.movements = exSrcOnly.movements ++
        [⟨1, 10, -5, old.unit_cost, "adjustment", none,
          some (transfer_src_note 2 none)⟩]) ∧
    exBadTransfer.db.movements.filter
        (fun m => m.movement_type == "transfer") =
      exSrcOnly.movements.filter (fun m => m.movement_type == "transfer") :=
  c3_transfer_source_persists exSrcOnly 1 2 10 5 none exAdjInv exAdjDB
    .storeNotFound exBadTransfer.db (by decide)
    (by with_unfolding_all rfl) (by with_unfolding_all rfl)

/-- An erring `record_sale` returns the input state: every raise happens
before any write. -/
theorem record_sale_err_state {db : DB} {s p : Nat} {q : Int}
    {r : Option Nat} {n : Option String} {e : Err} {db1 : DB}
    (h : record_sale db s p q r n = .err e db1) : db1 = db := by
  unfold record_sale at h
  by_cases h1 : q ≤ 0
  · rw [if_pos h1] at h
    injection h with _ hb
    exact hb.symm
  rw [if_neg h1] at h
  cases hg : get_by_store_and_product db s p with
  | none =>
    rw [hg] at h
    injection h with _ hb
    exact hb.symm
  | some inv =>
    rw [hg] at h
    dsimp only at h
    by_cases h2 : inv.quantity_balance < q
    · rw [if_pos h2] at h
      injection h with _ hb
      exact hb.symm
    · rw [if_neg h2] at h
      exact Res.noConfusion h

/-- `record_sale` never touches the transaction tables, whether it
returns or raises. -/
theorem record_sale_rows (db : DB) (s p : Nat) (q : Int) (r : Option Nat)
    (n : Option String) :
    ((record_sale db s p q r n).db).transactions = db.transactions ∧
    ((record_sale db s p q r n).db).transaction_items =
      db.transaction_items := by
  unfold record_sale
  by_cases h1 : q ≤ 0
  · rw [if_pos h1]
    exact ⟨rfl, rfl⟩
  rw [if_neg h1]
  cases hg : get_by_store_and_product db s p with
  | none => exact ⟨rfl, rfl⟩
  | some inv =>
    dsimp only
    by_cases h2 : inv.quantity_balance < q
    · rw [if_pos h2]
      exact ⟨rfl, rfl⟩
    · rw [if_neg h2]
      exact ⟨rfl, rfl⟩

/-- The per-item sale loop never touches the transaction tables either. -/
theorem sell_items_rows (s tid : Nat) (l : List TransactionItemRow)
    (db : DB) :
    ((sell_items s tid db l).db).transactions = db.transactions ∧
    ((sell_items s tid db l).db).transaction_items =
      db.transaction_items := by
  induction l generalizing db with
  | nil => exact ⟨rfl, rfl⟩
  | cons it rest ih =>
    unfold sell_items
    have h := record_sale_rows db s it.product_id it.quantity (some tid)
      (some (sale_note tid))
    cases hres : record_sale db s it.product_id it.quantity (some tid)
        (some (sale_note tid)) with
    | err e db2 =>
      rw [hres] at h
      exact h
    | ok v db2 =>
      rw [hres] at h
      have h2 := ih db2
      exact ⟨h2.1.trans h.1, h2.2.trans h.2⟩

/-- A failing sale loop stops at the first failing item: the reached
state is exactly the state after the sales of the items before it, and
the failing sale raised on that state without changing it. -/
theorem sell_items_err {s tid : Nat} {l : List TransactionItemRow}
    {db : DB} {e : Err} {db1 : DB}
    (h : sell_items s tid db l = .err e db1) :
    ∃ k, ∃ hk : k < l.length,
      sell_items s tid db (l.take k) = .ok () db1 ∧
      record_sale db1 s (l.get ⟨k, hk⟩).product_id
        (l.get ⟨k, hk⟩).quantity (some tid) (some (sale_note tid)) =
        .err e db1 := by
  induction l generalizing db with
  | nil =>
    rw [sell_items] at h
    exact Res.noConfusion h
  | cons it rest ih =>
    rw [sell_items] at h
    cases hres : record_sale db s it.product_id it.quantity (some tid)
        (some (sale_note tid)) with
    | err e2 db2 =>
      rw [hres] at h
      injection h with he hb
      subst he
      subst hb
      have hdb : db2 = db := record_sale_err_state hres
      subst hdb
      exact ⟨0, by simp, rfl, hres⟩
    | ok v db2 =>
      rw [hres] at h
      obtain ⟨k, hk, h1, h2⟩ := ih h
      refine ⟨k + 1, by simpa using Nat.succ_lt_succ hk, ?_, ?_⟩
      · rw [List.take_succ_cons, sell_items, hres]
        exact h1
      · exact h2

/-- C2 (amended): order completion is NOT all-or-nothing.  If a pending
order's completion fails, the order row (hence its `pending` status) is
unchanged, and the committed state is exactly the state after the sales of
the line items processed BEFORE the failing one — those sales remain
applied, while the failing sale left the state untouched.  The status
flips to `completed` only when the sale succeeds for every line item. -/
theorem c2_complete_not_atomic (db : DB) (tid : Nat) (tx : TransactionRow)
    (hget : transaction_get db tid = some tx)
    (hp : tx.status = "pending") :
    (∀ e db1, complete_transaction db tid = .err e db1 →
      transaction_get db1 tid = some tx ∧
      ∃ k, ∃ hk : k < (get_by_transaction db tid).length,
        sell_items tx.store_id tid db ((get_by_transaction db tid).take k) =
          .ok () db1 ∧
        record_sale db1 tx.store_id
          ((get_by_transaction db tid).get ⟨k, hk⟩).product_id
          ((get_by_transaction db tid).get ⟨k, hk⟩).quantity
          (some tid) (some (sale_note tid)) = .err e db1) ∧
    (∀ tx2 db2, complete_transaction db tid = .ok tx2 db2 →
      tx2 = { tx with status := "completed" } ∧
      ∃ db1, sell_items tx.store_id tid db (get_by_transaction db tid) =
        .ok () db1 ∧
        db2 = transaction_update_status db1 tid "completed") := by
  have hnp : ¬ tx.status ≠ "pending" := by
    rw [hp]
    exact fun hcon => hcon rfl
  constructor
  · intro e db1 hcomp
    unfold complete_transaction at hcomp
    rw [hget] at hcomp
    dsimp only at hcomp
    rw [if_neg hnp] at hcomp
    cases hsell : sell_items tx.store_id tid db
        (get_by_transaction db tid) with
    | err e2 dbx =>
      rw [hsell] at hcomp
      injection hcomp with he hb
      subst he
      subst hb
      constructor
      · have hrows := sell_items_rows tx.store_id tid
          (get_by_transaction db tid) db
        rw [hsell] at hrows
        dsimp only [Res.db] at hrows
        unfold transaction_get
        rw [hrows.1]
        exact hget
      · exact sell_items_err hsell
    | ok v dbx =>
      rw [hsell] at hcomp
      exact Res.noConfusion hcomp
  · intro tx2 db2 hcomp
    unfold complete_transaction at hcomp
    rw [hget] at hcomp
    dsimp only at hcomp
    rw [if_neg hnp] at hcomp
    cases hsell : sell_items tx.store_id tid db
        (get_by_transaction db tid) with
    | err e2 dbx =>
      rw [hsell] at hcomp
      exact Res.noConfusion hcomp
    | ok v dbx =>
      rw [hsell] at hcomp
      injection hcomp with ha hb
      refine ⟨ha.symm, dbx, ?_, hb.symm⟩
      cases v
      rfl

/-- C2 counterexample: the pending two-line order of `exC2order` (2 units
each of products 10 and 11, both available when it was created) is
completed after an out-of-band sale leaves product 11 with only 1 unit.
Completion fails with `InsufficientStockError` — but product 10's sale
REMAINS applied: its balance has dropped from 2 to 0 and a sale movement
was appended, refuting "no sale is applied for any line item".  The
status does stay `pending`. -/
theorem c2_failed_completion_keeps_partial_sales :
    exC2order.isOk = true ∧
    tx_status exC2d 0 = some "pending" ∧
    balance_qty exC2d 1 10 = 2 ∧
    exC2res = .err .insufficientStock exC2e ∧
    tx_status exC2e 0 = some "pending" ∧
    balance_qty exC2e 1 10 = 0 ∧
    (movements_for exC2e 1 10).length =
      (movements_for exC2d 1 10).length + 1 := by
  refine ⟨?_, ?_, ?_, ?_, ?_, ?_, ?_⟩
  · with_unfolding_all rfl
  · with_unfolding_all rfl
  · with_unfolding_all rfl
  · with_unfolding_all rfl
  · with_unfolding_all rfl
  · with_unfolding_all rfl
  · with_unfolding_all rfl

/-- C2 witness: the amended theorem applied to the failed completion of
the concrete order `exC2tx` on the depleted state `exC2d`. -/
theorem c2_complete_not_atomic_witness :
    transaction_get exC2e 0 = some exC2tx ∧
    ∃ k, ∃ hk : k < (get_by_transaction exC2d 0).length,
      sell_items exC2tx.store_id 0 exC2d
          ((get_by_transaction exC2d 0).take k) = .ok () exC2e ∧
      record_sale exC2e exC2tx.store_id
        ((get_by_transaction exC2d 0).get ⟨k, hk⟩).product_id
        ((get_by_transaction exC2d 0).get ⟨k, hk⟩).quantity
        (some 0) (some (sale_note 0)) = .err .insufficientStock exC2e :=
  (c2_complete_not_atomic exC2d 0 exC2tx (by with_unfolding_all rfl)
    rfl).1 .insufficientStock exC2e (by with_unfolding_all rfl)

/-- A successful item-validation loop yields positive quantities and a
total that is exactly the sum of price times quantity over the validated
items. -/
theorem validate_items_ok {db : DB} {s : Nat} {items : List ReqItem}
    {vitems : List VItem} {total : Rat}
    (h : validate_items db s items = .ok (vitems, total)) :
    (∀ v ∈ vitems, 0 < v.quantity) ∧
    total = (vitems.map (fun v => v.price * (v.quantity : Rat))).sum := by
  induction items generalizing vitems total with
  | nil =>
    rw [validate_items] at h
    injection h with h1
    injection h1 with h2 h3
    subst h2
    subst h3
    exact ⟨by simp, by simp⟩
  | cons item rest ih =>
    rw [validate_items] at h
    by_cases h1 : item.quantity = 0
    · rw [if_pos h1] at h
      exact Except.noConfusion h
    rw [if_neg h1] at h
    by_cases h2 : item.quantity ≤ 0
    · rw [if_pos h2] at h
      exact Except.noConfusion h
    rw [if_neg h2] at h
    by_cases h3 : db.products.contains item.product_id = false
    · rw [if_pos h3] at h
      exact Except.noConfusion h
    rw [if_neg h3] at h
    cases hp : resolve_price db item with
    | error e =>
      rw [hp] at h
      exact Except.noConfusion h
    | ok price =>
      rw [hp] at h
      dsimp only at h
      cases hg : get_by_store_and_product db s item.product_id with
      | none =>
        rw [hg] at h
        exact Except.noConfusion h
      | some inv =>
        rw [hg] at h
        dsimp only at h
        by_cases h4 : inv.quantity_balance < item.quantity
        · rw [if_pos h4] at h
          exact Except.noConfusion h
        rw [if_neg h4] at h
        cases hrest : validate_items db s rest with
        | error e =>
          rw [hrest] at h
          exact Except.noConfusion h
        | ok pr =>
          obtain ⟨vrest, trest⟩ := pr
          rw [hrest] at h
          dsimp only at h
          injection h with h5
          injection h5 with h6 h7
          subst h6
          subst h7
          obtain ⟨hq, hsum⟩ := ih hrest
          refine ⟨?_, ?_⟩
          · intro v hv
            rcases List.mem_cons.mp hv with h8 | h8
            · rw [h8]
              dsimp only
              omega
            · exact hq v h8
          · simp [hsum]

/-- A successful item-creation loop certifies that every row passed the
CHECK constraints (positive quantity and positive price) and appends
exactly the translations of the rows to the `transaction_items` table. -/
theorem create_tx_items_ok {tid : Nat} {l : List VItem} {db db1 : DB}
    (h : create_tx_items tid db l = .ok () db1) :
    (∀ v ∈ l, 0 < v.quantity ∧ 0 < v.price) ∧
    db1.transaction_items = db.transaction_items ++
      l.map (fun v =>
        (⟨tid, v.product_id, v.quantity, v.price⟩ : TransactionItemRow)) := by
  induction l generalizing db with
  | nil =>
    rw [create_tx_items] at h
    injection h with _ hb
    subst hb
    exact ⟨by simp, by simp⟩
  | cons v rest ih =>
    rw [create_tx_items] at h
    unfold append_tx_item at h
    by_cases h1 : v.quantity ≤ 0
    · rw [if_pos h1] at h
      dsimp only at h
      exact Res.noConfusion h
    rw [if_neg h1] at h
    by_cases h2 : v.price ≤ 0
    · rw [if_pos h2] at h
      dsimp only at h
      exact Res.noConfusion h
    rw [if_neg h2] at h
    dsimp only at h
    obtain ⟨hrest, hitems⟩ := ih h
    refine ⟨?_, ?_⟩
    · intro w hw
      rcases List.mem_cons.mp hw with h3 | h3
      · subst h3
        exact ⟨by omega, not_le.mp h2⟩
      · exact hrest w h3
    · rw [hitems]
      simp

/-- Mapping a function that is invariant under the update ignores
`updateFirst`. -/
theorem map_updateFirst {p : α → Bool} {f : α → α} {g : α → β}
    (l : List α) (hfg : ∀ a, g (f a) = g a) :
    (updateFirst p f l).map g = l.map g := by
  induction l with
  | nil => rfl
  | cons x xs ih =>
    rw [updateFirst]
    by_cases hx : p x = true
    · rw [if_pos hx]
      simp [hfg]
    · rw [if_neg hx]
      simp [ih]

/-- A status overwrite changes neither any stored total nor any line
item. -/
theorem tx_totals_update_status (db : DB) (tid : Nat) (st : String) :
    tx_totals (transaction_update_status db tid st) = tx_totals db := by
  unfold tx_totals transaction_update_status
  dsimp only
  exact map_updateFirst db.transactions (fun a => rfl)

/-- `record_return` never touches the transaction tables. -/
theorem record_return_rows (db : DB) (s p : Nat) (q : Int)
    (r : Option Nat) (n : Option String) :
    ((record_return db s p q r n).db).transactions = db.transactions ∧
    ((record_return db s p q r n).db).transaction_items =
      db.transaction_items := by
  unfold record_return
  by_cases h1 : q ≤ 0
  · rw [if_pos h1]
    exact ⟨rfl, rfl⟩
  rw [if_neg h1]
  cases hg : get_by_store_and_product db s p with
  | none => exact ⟨rfl, rfl⟩
  | some inv => exact ⟨rfl, rfl⟩

/-- The per-item return loop never touches the transaction tables. -/
theorem return_items_rows (s tid : Nat) (l : List TransactionItemRow)
    (db : DB) :
    ((return_items s tid db l).db).transactions = db.transactions ∧
    ((return_items s tid db l).db).transaction_items =
      db.transaction_items := by
  induction l generalizing db with
  | nil => exact ⟨rfl, rfl⟩
  | cons it rest ih =>
    unfold return_items
    have h := record_return_rows db s it.product_id it.quantity (some tid)
      (some (refund_note tid))
    cases hres : record_return db s it.product_id it.quantity (some tid)
        (some (refund_note tid)) with
    | err e db2 =>
      rw [hres] at h
      exact h
    | ok v db2 =>
      rw [hres] at h
      have h2 := ih db2
      exact ⟨h2.1.trans h.1, h2.2.trans h.2⟩

/-- Identical transaction tables give identical total maps. -/
theorem tx_totals_congr {db1 db2 : DB}
    (h : db1.transactions = db2.transactions) :
    tx_totals db1 = tx_totals db2 := by
  unfold tx_totals
  rw [h]

/-- C6: for every successfully created order, the status is `pending`,
the stored `total_amount` is the exact sum of price times quantity over
the stored line items and is non-negative (the header
commit would have failed its `total_amount >= 0` CHECK constraint
otherwise), every stored line item carries a positive quantity and a
positive price (the `transaction_items` CHECK constraints), and no later
operation (`complete_transaction`, `cancel_transaction`,
`refund_transaction`, or a catalog price update) changes any stored total
or any line item. -/
theorem c6_order_totals :
    (∀ db s emp items cust tx db1,
      create_transaction db s emp items cust = .ok tx db1 →
      tx.status = "pending" ∧
      0 ≤ tx.total_amount ∧
      ∃ vitems, validate_items db s items = .ok (vitems, tx.total_amount) ∧
        (∀ v ∈ vitems, 0 < v.quantity ∧ 0 < v.price) ∧
        tx.total_amount =
          (vitems.map (fun v => v.price * (v.quantity : Rat))).sum ∧
        db1.transaction_items = db.transaction_items ++
          vitems.map (fun v =>
            (⟨tx.id, v.product_id, v.quantity, v.price⟩ :
              TransactionItemRow))) ∧
    (∀ db tid, tx_totals ((complete_transaction db tid).db) = tx_totals db ∧
      ((complete_transaction db tid).db).transaction_items =
        db.transaction_items) ∧
    (∀ db tid, tx_totals ((cancel_transaction db tid).db) = tx_totals db ∧
      ((cancel_transaction db tid).db).transaction_items =
        db.transaction_items) ∧
    (∀ db tid b, tx_totals ((refund_transaction db tid b).db) = tx_totals db ∧
      ((refund_transaction db tid b).db).transaction_items =
        db.transaction_items) ∧
    (∀ db pid np, tx_totals ((update_price db pid np).db) = tx_totals db ∧
      ((update_price db pid np).db).transaction_items =
        db.transaction_items) := by
  refine ⟨?_, ?_, ?_, ?_, ?_⟩
  · intro db s emp items cust tx db1 h
    unfold create_transaction at h
    by_cases h1 : db.stores.contains s = false
    · rw [if_pos h1] at h
      exact Res.noConfusion h
    rw [if_neg h1] at h
    by_cases h2 : db.employees.contains emp = false
    · rw [if_pos h2] at h
      exact Res.noConfusion h
    rw [if_neg h2] at h
    by_cases h3 : cust.any (fun c => !db.customers.contains c) = true
    · rw [if_pos h3] at h
      exact Res.noConfusion h
    rw [if_neg h3] at h
    by_cases h4 : items.isEmpty = true
    · rw [if_pos h4] at h
      exact Res.noConfusion h
    rw [if_neg h4] at h
    cases hv : validate_items db s items with
    | error e =>
      rw [hv] at h
      exact Res.noConfusion h
    | ok pr =>
      obtain ⟨vitems, total⟩ := pr
      rw [hv] at h
      dsimp only at h
      by_cases h5 : total < 0
      · rw [if_pos h5] at h
        exact Res.noConfusion h
      rw [if_neg h5] at h
      split at h
      · exact Res.noConfusion h
      · rename_i u db2 hitems
        injection h with ha hb
        subst ha
        subst hb
        obtain ⟨_, hsum⟩ := validate_items_ok hv
        cases u
        obtain ⟨hqp, hitemseq⟩ := create_tx_items_ok hitems
        exact ⟨rfl, not_lt.mp h5, vitems, rfl, hqp, hsum, hitemseq⟩
  · intro db tid
    unfold complete_transaction
    cases hget : transaction_get db tid with
    | none => exact ⟨rfl, rfl⟩
    | some t =>
      dsimp only
      by_cases hs : t.status ≠ "pending"
      · rw [if_pos hs]
        exact ⟨rfl, rfl⟩
      rw [if_neg hs]
      have hrows := sell_items_rows t.store_id tid
        (get_by_transaction db tid) db
      cases hsell : sell_items t.store_id tid db
          (get_by_transaction db tid) with
      | err e db1 =>
        rw [hsell] at hrows
        dsimp only [Res.db] at hrows ⊢
        exact ⟨tx_totals_congr hrows.1, hrows.2⟩
      | ok v db1 =>
        rw [hsell] at hrows
        dsimp only [Res.db] at hrows ⊢
        constructor
        · exact (tx_totals_update_status db1 tid "completed").trans
            (tx_totals_congr hrows.1)
        · exact hrows.2
  · intro db tid
    unfold cancel_transaction
    cases hget : transaction_get db tid with
    | none => exact ⟨rfl, rfl⟩
    | some t =>
      dsimp only
      by_cases hs : t.status = "cancelled" ∨ t.status = "refunded"
      · rw [if_pos hs]
        exact ⟨rfl, rfl⟩
      · rw [if_neg hs]
        dsimp only [Res.db]
        exact ⟨tx_totals_update_status db tid "cancelled", rfl⟩
  · intro db tid b
    unfold refund_transaction
    cases hget : transaction_get db tid with
    | none => exact ⟨rfl, rfl⟩
    | some t =>
      dsimp only
      by_cases hs : t.status ≠ "completed"
      · rw [if_pos hs]
        exact ⟨rfl, rfl⟩
      rw [if_neg hs]
      by_cases hb : b = true
      · rw [if_pos hb]
        have hrows := return_items_rows t.store_id tid
          (get_by_transaction db tid) db
        cases hret : return_items t.store_id tid db
            (get_by_transaction db tid) with
        | err e db1 =>
          rw [hret] at hrows
          dsimp only [Res.db] at hrows ⊢
          exact ⟨tx_totals_congr hrows.1, hrows.2⟩
        | ok v db1 =>
          rw [hret] at hrows
          dsimp only [Res.db] at hrows ⊢
          constructor
          · exact (tx_totals_update_status db1 tid "refunded").trans
              (tx_totals_congr hrows.1)
          · exact hrows.2
      · rw [if_neg hb]
        dsimp only [Res.db]
        exact ⟨tx_totals_update_status db tid "refunded", rfl⟩
  · intro db pid np
    unfold update_price
    by_cases h1 : db.products.contains pid = false
    · rw [if_pos h1]
      exact ⟨rfl, rfl⟩
    rw [if_neg h1]
    by_cases h2 : np ≤ 0
    · rw [if_pos h2]
      exact ⟨rfl, rfl⟩
    · rw [if_neg h2]
      exact ⟨rfl, rfl⟩

/-- C6 witness: the claim theorem applied to the concrete successful
creation of the two-line order `exC2order`, and to a concrete catalog
price update on the resulting state. -/
theorem c6_order_totals_witness :
    (exC2tx.status = "pending" ∧
      0 ≤ exC2tx.total_amount ∧
      ∃ vitems, validate_items exC2b 1
          [⟨10, 2, some 1⟩, ⟨11, 2, some 1⟩] = .ok (vitems, exC2tx.total_amount) ∧
        (∀ v ∈ vitems, 0 < v.quantity ∧ 0 < v.price) ∧
        exC2tx.total_amount =
          (vitems.map (fun v => v.price * (v.quantity : Rat))).sum ∧
        exC2c.transaction_items = exC2b.transaction_items ++
          vitems.map (fun v =>
            (⟨exC2tx.id, v.product_id, v.quantity, v.price⟩ :
              TransactionItemRow))) ∧
    (tx_totals ((update_price exC2c 10 7).db) = tx_totals exC2c ∧
      ((update_price exC2c 10 7).db).transaction_items =
        exC2c.transaction_items) :=
  ⟨c6_order_totals.1 exC2b 1 7 [⟨10, 2, some 1⟩, ⟨11, 2, some 1⟩] none
      exC2tx exC2c (by with_unfolding_all rfl),
   c6_order_totals.2.2.2.2 exC2c 10 7⟩

end ApiCrud
